import Mathlib

/-!
Verification development for the `mcp-ado-tasks` Cloudflare Worker
(`cloudflare/src/worker.js`).

The worker is shallowly embedded: every JavaScript function that the
properties below depend on is translated into an executable Lean
definition.  JavaScript idioms are made explicit:

* `undefined` / absent values are `Option.none`;
* JS truthiness of a string-or-undefined value (`if (s)`) is
  `jsTruthyS`: false exactly for `undefined` and `""`;
* string interpolation of a possibly-undefined value produces the
  literal text "undefined" (`jsStr`);
* the key/value stores (Cloudflare KV or the in-memory `Map` fallback)
  are association lists where `put` prepends and `lookup` finds the
  most recent entry — both tiers expose the same get/put contract, so
  one model covers whichever tier a deployment selects;
* network calls to the Azure DevOps REST API are modelled by an
  oracle: a list of outcomes consumed in order, one per issued request;
  every issued request is recorded in a trace so that theorems can
  speak about which remote calls were attempted.
-/

namespace AdoWorker

/-- JS string interpolation of a possibly-undefined value:
`${x}` renders `undefined` as the literal text "undefined". -/
def jsStr : Option String → String
  | Option.none => "undefined"
  | Option.some s => s

/-- JS truthiness of a string-or-undefined value: `undefined` and the
empty string are falsy, every other string is truthy. -/
def jsTruthyS (o : Option String) : Bool :=
  if o.getD "" = "" then false else true

/-! ## Rate limiter (`_checkRateLimit`, worker.js lines 454-510)

The store is keyed by the string `ratelimit:<ip>:<bucket>` exactly as
in the source.  The KV branch and the in-memory branch share the same
read / compare / increment logic; the in-memory branch additionally
evicts keys whose bucket is older than `bucket - 2`, which never
affects the current or the next bucket and is therefore omitted. -/

/-- `const RATE_LIMIT = 10` — requests per second. -/
def RATE_LIMIT : Nat := 10

/-- Result of `_checkRateLimit`: `{allowed, retryAfter?}`. -/
structure RLResult where
  allowed : Bool
  retryAfter : Option Nat
deriving DecidableEq, Repr

/-- Rate-limit counter store: key ↦ count. -/
def RLStore := List (String × Nat)

/-- Read a counter; a missing key reads as 0
(`const stored = ...; count = stored ? parseInt(stored, 10) : 0`). -/
def rlGet (store : RLStore) (k : String) : Nat :=
  match store.lookup k with
  | Option.some c => c
  | Option.none => 0

/-- Write a counter (`put(key, String(count))` / `Map.set`). -/
def rlPut (store : RLStore) (k : String) (v : Nat) : RLStore :=
  (k, v) :: store

/-- The composite key `ratelimit:${clientIP}:${windowStart}`. -/
def rlKey (ip : String) (bucket : Nat) : String :=
  "ratelimit:" ++ ip ++ ":" ++ Nat.repr bucket

/-- One `_checkRateLimit` call for a given source identity and
one-second bucket: read the count; if it is at least `RATE_LIMIT`,
reject with `retryAfter = 1` without writing; otherwise increment and
allow. -/
def checkRateLimit (store : RLStore) (ip : String) (bucket : Nat) :
    RLResult × RLStore :=
  let key := rlKey ip bucket
  let count := rlGet store key
  if RATE_LIMIT ≤ count then
    (⟨false, Option.some 1⟩, store)
  else
    (⟨true, Option.none⟩, rlPut store key (count + 1))

/-- The store after `n` sequential `_checkRateLimit` calls, all from
source `ip` inside bucket `bucket`, starting from `store`. -/
def rlRunFrom (store : RLStore) (ip : String) (bucket : Nat) : Nat → RLStore
  | 0 => store
  | n + 1 => (checkRateLimit (rlRunFrom store ip bucket n) ip bucket).2

/-! ## Environment, headers and authenticator -/

/-- The worker environment bindings that the embedded code reads.
Each secret/variable is `Option String`: `Option.none` models an
unset binding (JS `undefined`). -/
structure Env where
  ADO_PAT : Option String
  ADO_ORG : Option String
  ADO_PROJECT : Option String
  MCP_API_KEY : Option String
deriving DecidableEq, Repr

/-- Request headers.  `request.headers.get(name)` returns the value or
null; the model uses exact-name lookup (callers use one casing). -/
def Headers := List (String × String)

/-- `request.headers.get(name)`: the header value, or `Option.none`
for JS null. -/
def hGet (hs : Headers) (name : String) : Option String :=
  hs.lookup name

/-- The bearer token extracted from the `authorization` header:
`const auth = request.headers.get("authorization") || "";
const bearer = auth.startsWith("Bearer ") ? auth.slice(7) : null`. -/
def bearerOf (hs : Headers) : Option String :=
  let auth := (hGet hs "authorization").getD ""
  if auth.startsWith "Bearer " then Option.some (auth.drop 7) else Option.none

/-- `_isAuthorized(request, env)` (worker.js lines 512-518): false when
`MCP_API_KEY` is unset or empty (falsy); otherwise true exactly when
the `x-api-key` header strictly equals the key or the bearer token
does (`xApiKey === env.MCP_API_KEY || bearer === env.MCP_API_KEY`,
written as an if-chain). -/
def _isAuthorized (hs : Headers) (env : Env) : Bool :=
  if jsTruthyS env.MCP_API_KEY = false then false
  else if hGet hs "x-api-key" = env.MCP_API_KEY then true
  else if bearerOf hs = env.MCP_API_KEY then true
  else false

/-! ## Session store (`getActiveStoryId` / `saveStoryId`,
worker.js lines 219-233)

The store is KV or the in-memory `memorySessions` map; both expose
get/put, modelled as one association list.  Values are
`Option String` because `saveStoryId` stores the raw `storyId`
argument, which can be JS `undefined`. -/

def Sessions := List (String × Option String)

/-- The session-scoped key `story:${sessionId}`. -/
def storyKey (sessionId : String) : String :=
  "story:" ++ sessionId

/-- Error text thrown by `getActiveStoryId` when no story is set. -/
def noActiveStoryMsg : String := "No active story set. Call set_story first."

/-- `getActiveStoryId(env, sessionId)`: read `story:${sessionId}`;
throw if the stored value is falsy (missing, undefined, or ""). -/
def getActiveStoryId (sessions : Sessions) (sessionId : String) :
    Except String String :=
  match sessions.lookup (storyKey sessionId) with
  | Option.some (Option.some s) =>
      if s = "" then Except.error noActiveStoryMsg else Except.ok s
  | _ => Except.error noActiveStoryMsg

/-- `saveStoryId(env, sessionId, storyId)`: write `story:${sessionId}`. -/
def saveStoryId (sessions : Sessions) (sessionId : String)
    (storyId : Option String) : Sessions :=
  (storyKey sessionId, storyId) :: sessions

/-! ## Remote tracker model (`adoRequest`, worker.js lines 189-217)

A remote call is recorded as an `AdoReq` in a trace.  Its outcome is
drawn from an oracle: a list of outcomes consumed one per issued
request.  An exhausted oracle stands for a network failure that occurs
after the request was issued (the request still appears in the
trace). -/

/-- A value inside a JSON-patch operation. -/
inductive PatchVal
  | str (s : String)
  /-- JS `undefined` (a missing argument interpolated into the patch). -/
  | undef
  /-- A relation object `{rel, url, attributes: {comment}}`. -/
  | rel (relType : String) (url : String) (comment : String)
  /-- The member a plain object literal inherits from `Object.prototype`
  under the named key (a function, or the prototype object for the
  `__proto__` accessor).  JSON serialization drops a function-valued
  `value` key from the operation. -/
  | protoMember (name : String)
deriving DecidableEq, Repr

/-- One JSON-patch operation `{op, path, value}`. -/
structure PatchOp where
  op : String
  path : String
  value : PatchVal
deriving DecidableEq, Repr

/-- A request body: a JSON-patch document or a WIQL query object. -/
inductive ReqBody
  | patch (ops : List PatchOp)
  | wiql (query : String)
deriving DecidableEq, Repr

/-- One issued remote request. -/
structure AdoReq where
  method : String
  url : String
  body : Option ReqBody
  contentType : String
deriving DecidableEq, Repr

/-- The remote `System.AssignedTo` value: a structured identity object
or a plain value. -/
inductive Assigned
  | identity (displayName : String)
  | raw (s : String)
deriving DecidableEq, Repr

/-- The work-item fields the embedded handlers read.  `Option.none`
models an absent JSON field. -/
structure WIFields where
  sysTitle : Option String
  sysWorkItemType : Option String
  sysState : Option String
  sysDescription : Option String
  sysAssignedTo : Option Assigned
  sysParent : Option Nat
deriving DecidableEq, Repr

/-- The empty fields object `{}` used by `wi.fields ?? {}`. -/
def emptyFields : WIFields :=
  ⟨Option.none, Option.none, Option.none, Option.none, Option.none, Option.none⟩

/-- One entry of `wi.relations`. -/
structure RelEntry where
  rel : String
  url : String
  attributes : Option (List (String × String))
deriving DecidableEq, Repr

/-- One entry of a batch `GET /wit/workitems?ids=...` response. -/
structure BatchItem where
  id : Option Nat
  fields : Option WIFields
deriving DecidableEq, Repr

/-- One entry of `result.workItemRelations`; `targetId` collapses the
optional chain `r.target?.id`. -/
structure WiqlRel where
  targetId : Option Nat
deriving DecidableEq, Repr

/-- A parsed JSON response from the remote tracker; each field is
present only for the response shapes that carry it. -/
structure AdoResp where
  id : Option Nat
  fields : Option WIFields
  relations : Option (List RelEntry)
  workItemRelations : Option (List WiqlRel)
  workItems : Option (List (Option Nat))
  value : Option (List BatchItem)
deriving DecidableEq, Repr

/-- Outcome of one remote call: a parsed success, or the thrown
message `ADO <method> <url> -> <status>: <text>` for a non-success
response. -/
inductive AdoOutcome
  | ok (resp : AdoResp)
  | err (message : String)
deriving DecidableEq, Repr

def Oracle := List AdoOutcome

/-- `_requiredEnv(env)`: throws unless `ADO_PAT`, `ADO_ORG` and
`ADO_PROJECT` are all truthy. -/
def _requiredEnv (env : Env) : Except String Unit :=
  if jsTruthyS env.ADO_PAT && jsTruthyS env.ADO_ORG && jsTruthyS env.ADO_PROJECT then
    Except.ok ()
  else Except.error "ADO_PAT, ADO_ORG and ADO_PROJECT are required"

/-- `_orgUrl(env)` = `https://dev.azure.com/${env.ADO_ORG}`. -/
def _orgUrl (env : Env) : String :=
  "https://dev.azure.com/" ++ jsStr env.ADO_ORG

/-- `adoRequest(env, method, path, body, contentType)`: check required
configuration, build the full URL, issue the request (recording it in
the trace) and take the next oracle outcome as its result. -/
def adoRequest (env : Env) (method : String) (path : String)
    (body : Option ReqBody) (contentType : String) (oracle : Oracle) :
    Except String AdoResp × List AdoReq × Oracle :=
  match _requiredEnv env with
  | Except.error e => (Except.error e, [], oracle)
  | Except.ok _ =>
    let req : AdoReq :=
      ⟨method, _orgUrl env ++ "/" ++ jsStr env.ADO_PROJECT ++ "/_apis" ++ path,
       body, contentType⟩
    match oracle with
    | [] => (Except.error "network unavailable", [req], [])
    | AdoOutcome.ok r :: rest => (Except.ok r, [req], rest)
    | AdoOutcome.err e :: rest => (Except.error e, [req], rest)

/-! ## Tool handlers (worker.js lines 235-444) -/

/-- `const STATE_MAP = {pending: "To Do", in_progress: "Active",
completed: "Closed", deleted: "Removed"}` (worker.js lines 1-6). -/
def STATE_MAP : List (String × String) :=
  [("pending", "To Do"), ("in_progress", "Active"),
   ("completed", "Closed"), ("deleted", "Removed")]

/-- `const STORY_ACTIVE_STATES = new Set(["New", "Approved",
"Committed", "Design"])` (worker.js line 8). -/
def STORY_ACTIVE_STATES : List String :=
  ["New", "Approved", "Committed", "Design"]

/-- The property names every plain object literal inherits from
`Object.prototype` in V8: reading `STATE_MAP[name]` for one of these
yields the inherited member — a truthy function, or the prototype
object for the `__proto__` accessor — rather than `undefined`. -/
def OBJECT_PROTOTYPE_MEMBERS : List String :=
  ["constructor", "hasOwnProperty", "isPrototypeOf", "propertyIsEnumerable",
   "toLocaleString", "toString", "valueOf",
   "__defineGetter__", "__defineSetter__", "__lookupGetter__", "__lookupSetter__",
   "__proto__"]

/-- The result of a JS property read `obj[key]` on a plain object
literal whose own entries are strings. -/
inductive JsProp
  /-- An own entry (a string value of the literal). -/
  | str (s : String)
  /-- A truthy member inherited from `Object.prototype`. -/
  | inherited (name : String)
  /-- `undefined`: the key is neither an own entry nor inherited. -/
  | undef
deriving DecidableEq, Repr

/-- JS property access `obj[key]` on a string-valued object literal:
an own entry first, else the `Object.prototype` chain, else
`undefined`. -/
def jsObjGet (obj : List (String × String)) (key : String) : JsProp :=
  match obj.lookup key with
  | Option.some v => JsProp.str v
  | Option.none =>
    if OBJECT_PROTOTYPE_MEMBERS.contains key then JsProp.inherited key
    else JsProp.undef

/-- `String(x)` on a possibly-undefined numeric id. -/
def jsStrOfNat : Option Nat → String
  | Option.none => "undefined"
  | Option.some n => Nat.repr n

/-- `typeof assigned === "object" ? assigned.displayName : assigned`:
`undefined` stays absent, a structured identity yields its display
name, a plain value passes through. -/
def jsOwner : Option Assigned → Option String
  | Option.none => Option.none
  | Option.some (Assigned.identity d) => Option.some d
  | Option.some (Assigned.raw s) => Option.some s

/-- A possibly-undefined string used as a JSON-patch value. -/
def pval : Option String → PatchVal
  | Option.none => PatchVal.undef
  | Option.some s => PatchVal.str s

/-- One row of a `task_list` result. -/
structure TaskRow where
  task_id : String
  title : Option String
  state : Option String
  owner : Option String
deriving DecidableEq, Repr

/-- One row of a `task_list_mine` result. -/
structure MineRow where
  task_id : String
  title : Option String
  state : Option String
  owner : Option String
  parent_id : Option String
deriving DecidableEq, Repr

/-- One normalized relation descriptor of a `task_get` result. -/
structure RelRow where
  rel : String
  url : String
  attributes : List (String × String)
deriving DecidableEq, Repr

/-- The success value returned by each tool handler. -/
inductive ToolResult
  | setStoryR (story_id : Option String) (title : String) (wiType : String)
      (state : String) (message : String)
  | taskCreateR (task_id : String) (title : Option String)
      (parent_story_id : String)
  | taskUpdateNoop (task_id : Option String) (message : String)
  | taskUpdateR (task_id : Option String) (title : Option String)
      (state : Option String)
  | taskListR (story_id : String) (tasks : List TaskRow)
  | taskGetR (task_id : String) (title : Option String)
      (description : Option String) (state : Option String)
      (owner : Option String) (relations : List RelRow)
  | taskLinkR (task_id : Option String) (depends_on_id : Option String)
      (message : String)
  | taskListMineR (tasks : List MineRow)
  | storyResolveR (story_id : String) (state : String) (message : String)
deriving DecidableEq, Repr

/-- `setStory(storyId, env, sessionId)` (worker.js lines 235-261):
fetch the story; save the story id for the session; if the current
state is in `STORY_ACTIVE_STATES`, also patch the state to "Active". -/
def setStory (storyId : Option String) (env : Env) (sessionId : String)
    (sessions : Sessions) (oracle : Oracle) :
    Except String ToolResult × List AdoReq × Sessions × Oracle :=
  match adoRequest env "GET" ("/wit/workitems/" ++ jsStr storyId ++ "?api-version=7.1")
      Option.none "application/json" oracle with
  | (Except.error e, tr, orc) => (Except.error e, tr, sessions, orc)
  | (Except.ok wi, tr, orc) =>
    let fields := wi.fields.getD emptyFields
    let title := fields.sysTitle.getD "(unknown)"
    let wiType := fields.sysWorkItemType.getD ""
    let currentState := fields.sysState.getD ""
    let sessions1 := saveStoryId sessions sessionId storyId
    if STORY_ACTIVE_STATES.contains currentState then
      match adoRequest env "PATCH" ("/wit/workitems/" ++ jsStr storyId ++ "?api-version=7.1")
          (Option.some (ReqBody.patch
            [⟨"add", "/fields/System.State", PatchVal.str "Active"⟩]))
          "application/json-patch+json" orc with
      | (Except.error e, tr2, orc2) => (Except.error e, tr ++ tr2, sessions1, orc2)
      | (Except.ok _, tr2, orc2) =>
        (Except.ok (ToolResult.setStoryR storyId title wiType "Active"
            ("Active story set to #" ++ jsStr storyId ++ ": " ++ title ++ " (moved to Active)")),
         tr ++ tr2, sessions1, orc2)
    else
      (Except.ok (ToolResult.setStoryR storyId title wiType currentState
          ("Active story set to #" ++ jsStr storyId ++ ": " ++ title)),
       tr, sessions1, orc)

/-- `taskCreate(subject, description, activeForm, env, sessionId)`
(worker.js lines 263-291). -/
def taskCreate (subject : Option String) (description : Option String)
    (activeForm : Option String) (env : Env) (sessionId : String)
    (sessions : Sessions) (oracle : Oracle) :
    Except String ToolResult × List AdoReq × Sessions × Oracle :=
  match getActiveStoryId sessions sessionId with
  | Except.error e => (Except.error e, [], sessions, oracle)
  | Except.ok storyId =>
    let basePatch : List PatchOp :=
      [⟨"add", "/fields/System.Title", pval subject⟩,
       ⟨"add", "/fields/System.Description", pval description⟩,
       ⟨"add", "/relations/-",
        PatchVal.rel "System.LinkTypes.Hierarchy-Reverse"
          (_orgUrl env ++ "/_apis/wit/workitems/" ++ storyId) "Child of story"⟩]
    let patchOps :=
      if jsTruthyS activeForm then
        basePatch ++ [⟨"add", "/fields/System.History", pval activeForm⟩]
      else basePatch
    match adoRequest env "POST" "/wit/workitems/$Task?api-version=7.1"
        (Option.some (ReqBody.patch patchOps)) "application/json-patch+json" oracle with
    | (Except.error e, tr, orc) => (Except.error e, tr, sessions, orc)
    | (Except.ok wi, tr, orc) =>
      let title :=
        match wi.fields.bind WIFields.sysTitle with
        | Option.some t => Option.some t
        | Option.none => subject
      (Except.ok (ToolResult.taskCreateR (jsStrOfNat wi.id) title storyId),
       tr, sessions, orc)

/-- `taskUpdate(taskId, status, subject, description, owner, env)`
(worker.js lines 293-317): build an incremental patch from the truthy
arguments; `const adoState = STATE_MAP[status]; if (!adoState) throw`
— the read goes through the prototype chain, so a status naming an
inherited `Object.prototype` member is truthy and does *not* throw; an
empty patch returns a no-op result without a remote call. -/
def taskUpdate (taskId : Option String) (status : Option String)
    (subject : Option String) (description : Option String)
    (owner : Option String) (env : Env) (oracle : Oracle) :
    Except String ToolResult × List AdoReq × Oracle :=
  let statusOps : Except String (List PatchOp) :=
    if jsTruthyS status then
      match jsObjGet STATE_MAP (status.getD "") with
      | JsProp.undef =>
        Except.error ("Unknown status '" ++ jsStr status
          ++ "'. Use: pending, in_progress, completed, deleted")
      | JsProp.str adoState =>
        Except.ok [⟨"add", "/fields/System.State", PatchVal.str adoState⟩]
      | JsProp.inherited name =>
        Except.ok [⟨"add", "/fields/System.State", PatchVal.protoMember name⟩]
    else Except.ok []
  match statusOps with
  | Except.error e => (Except.error e, [], oracle)
  | Except.ok p0 =>
    let p1 := p0 ++ (if jsTruthyS subject then
      [(⟨"add", "/fields/System.Title", PatchVal.str (subject.getD "")⟩ : PatchOp)] else [])
    let p2 := p1 ++ (if jsTruthyS description then
      [(⟨"add", "/fields/System.Description", PatchVal.str (description.getD "")⟩ : PatchOp)] else [])
    let p3 := p2 ++ (if jsTruthyS owner then
      [(⟨"add", "/fields/System.AssignedTo", PatchVal.str (owner.getD "")⟩ : PatchOp)] else [])
    if p3.isEmpty then
      (Except.ok (ToolResult.taskUpdateNoop taskId "No fields to update"), [], oracle)
    else
      match adoRequest env "PATCH" ("/wit/workitems/" ++ jsStr taskId ++ "?api-version=7.1")
          (Option.some (ReqBody.patch p3)) "application/json-patch+json" oracle with
      | (Except.error e, tr, orc) => (Except.error e, tr, orc)
      | (Except.ok wi, tr, orc) =>
        (Except.ok (ToolResult.taskUpdateR taskId
            (wi.fields.bind WIFields.sysTitle) (wi.fields.bind WIFields.sysState)),
         tr, orc)

/-- The WIQL query text built by `taskList`. -/
def taskListWiql (storyId : String) : String :=
  "\nSELECT [System.Id], [System.Title], [System.State], [System.AssignedTo]\nFROM WorkItemLinks\nWHERE [Source].[System.Id] = "
    ++ storyId
    ++ "\n  AND [System.Links.LinkType] = 'System.LinkTypes.Hierarchy-Forward'\n  AND [Target].[System.WorkItemType] = 'Task'\nMODE (MayContain)\n"

/-- Mapping of one batch work item to a `task_list` row. -/
def taskRowOf (wi : BatchItem) : TaskRow :=
  let f := wi.fields.getD emptyFields
  ⟨jsStrOfNat wi.id, f.sysTitle, f.sysState, jsOwner f.sysAssignedTo⟩

/-- `relations.map(r => r.target?.id).filter(Boolean)`: keep the
truthy ids (drops `undefined` and a zero id). -/
def truthyIds (relations : List WiqlRel) : List Nat :=
  (relations.map WiqlRel.targetId).filterMap fun o =>
    match o with
    | Option.some n => if n = 0 then Option.none else Option.some n
    | Option.none => Option.none

/-- `taskList(env, sessionId)` (worker.js lines 319-353). -/
def taskList (env : Env) (sessionId : String) (sessions : Sessions)
    (oracle : Oracle) :
    Except String ToolResult × List AdoReq × Sessions × Oracle :=
  match getActiveStoryId sessions sessionId with
  | Except.error e => (Except.error e, [], sessions, oracle)
  | Except.ok storyId =>
    match adoRequest env "POST" "/wit/wiql?api-version=7.1"
        (Option.some (ReqBody.wiql (taskListWiql storyId))) "application/json" oracle with
    | (Except.error e, tr, orc) => (Except.error e, tr, sessions, orc)
    | (Except.ok result, tr, orc) =>
      let ids := truthyIds (result.workItemRelations.getD [])
      if ids.isEmpty then
        (Except.ok (ToolResult.taskListR storyId []), tr, sessions, orc)
      else
        match adoRequest env "GET"
            ("/wit/workitems?ids=" ++ String.intercalate "," (ids.map Nat.repr)
              ++ "&fields=System.Id,System.Title,System.State,System.AssignedTo&api-version=7.1")
            Option.none "application/json" orc with
        | (Except.error e, tr2, orc2) => (Except.error e, tr ++ tr2, sessions, orc2)
        | (Except.ok batch, tr2, orc2) =>
          (Except.ok (ToolResult.taskListR storyId ((batch.value.getD []).map taskRowOf)),
           tr ++ tr2, sessions, orc2)

/-- `taskGet(taskId, env)` (worker.js lines 355-371). -/
def taskGet (taskId : Option String) (env : Env) (oracle : Oracle) :
    Except String ToolResult × List AdoReq × Oracle :=
  match adoRequest env "GET"
      ("/wit/workitems/" ++ jsStr taskId ++ "?$expand=relations&api-version=7.1")
      Option.none "application/json" oracle with
  | (Except.error e, tr, orc) => (Except.error e, tr, orc)
  | (Except.ok wi, tr, orc) =>
    let f := wi.fields.getD emptyFields
    (Except.ok (ToolResult.taskGetR (jsStrOfNat wi.id) f.sysTitle f.sysDescription
        f.sysState (jsOwner f.sysAssignedTo)
        ((wi.relations.getD []).map fun r => ⟨r.rel, r.url, r.attributes.getD []⟩)),
     tr, orc)

/-- `storyResolve(env, sessionId)` (worker.js lines 373-387). -/
def storyResolve (env : Env) (sessionId : String) (sessions : Sessions)
    (oracle : Oracle) :
    Except String ToolResult × List AdoReq × Sessions × Oracle :=
  match getActiveStoryId sessions sessionId with
  | Except.error e => (Except.error e, [], sessions, oracle)
  | Except.ok storyId =>
    match adoRequest env "PATCH" ("/wit/workitems/" ++ storyId ++ "?api-version=7.1")
        (Option.some (ReqBody.patch
          [⟨"add", "/fields/System.State", PatchVal.str "Resolved"⟩]))
        "application/json-patch+json" oracle with
    | (Except.error e, tr, orc) => (Except.error e, tr, sessions, orc)
    | (Except.ok _, tr, orc) =>
      (Except.ok (ToolResult.storyResolveR storyId "Resolved"
          ("Story #" ++ storyId ++ " marked as Resolved.")),
       tr, sessions, orc)

/-- The WIQL query text built by `taskListMine`. -/
def taskListMineWiql : String :=
  "\nSELECT [System.Id], [System.Title], [System.State], [System.AssignedTo], [System.Parent]\nFROM WorkItems\nWHERE [System.WorkItemType] = 'Task'\n  AND [System.AssignedTo] = @Me\n  AND ([System.State] = 'To Do' OR [System.State] = 'Active')\nORDER BY [System.ChangedDate] DESC\n"

/-- Mapping of one batch work item to a `task_list_mine` row
(`f["System.Parent"] ? String(...) : null`: zero is falsy). -/
def mineRowOf (wi : BatchItem) : MineRow :=
  let f := wi.fields.getD emptyFields
  ⟨jsStrOfNat wi.id, f.sysTitle, f.sysState, jsOwner f.sysAssignedTo,
   match f.sysParent with
   | Option.some p => if p = 0 then Option.none else Option.some (Nat.repr p)
   | Option.none => Option.none⟩

/-- `taskListMine(env)` (worker.js lines 389-419). -/
def taskListMine (env : Env) (oracle : Oracle) :
    Except String ToolResult × List AdoReq × Oracle :=
  match adoRequest env "POST" "/wit/wiql?api-version=7.1"
      (Option.some (ReqBody.wiql taskListMineWiql)) "application/json" oracle with
  | (Except.error e, tr, orc) => (Except.error e, tr, orc)
  | (Except.ok result, tr, orc) =>
    let workItems := result.workItems.getD []
    if workItems.isEmpty then (Except.ok (ToolResult.taskListMineR []), tr, orc)
    else
      match adoRequest env "GET"
          ("/wit/workitems?ids=" ++ String.intercalate "," (workItems.map jsStrOfNat)
            ++ "&fields=System.Id,System.Title,System.State,System.AssignedTo,System.Parent&api-version=7.1")
          Option.none "application/json" orc with
      | (Except.error e, tr2, orc2) => (Except.error e, tr ++ tr2, orc2)
      | (Except.ok batch, tr2, orc2) =>
        (Except.ok (ToolResult.taskListMineR ((batch.value.getD []).map mineRowOf)),
         tr ++ tr2, orc2)

/-- `taskLink(taskId, dependsOnId, env)` (worker.js lines 421-444). -/
def taskLink (taskId : Option String) (dependsOnId : Option String)
    (env : Env) (oracle : Oracle) :
    Except String ToolResult × List AdoReq × Oracle :=
  match adoRequest env "PATCH" ("/wit/workitems/" ++ jsStr taskId ++ "?api-version=7.1")
      (Option.some (ReqBody.patch
        [⟨"add", "/relations/-",
          PatchVal.rel "System.LinkTypes.Dependency-Forward"
            (_orgUrl env ++ "/_apis/wit/workitems/" ++ jsStr dependsOnId)
            ("Depends on #" ++ jsStr dependsOnId)⟩]))
      "application/json-patch+json" oracle with
  | (Except.error e, tr, orc) => (Except.error e, tr, orc)
  | (Except.ok _, tr, orc) =>
    (Except.ok (ToolResult.taskLinkR taskId dependsOnId
        ("Task #" ++ jsStr taskId ++ " now depends on #" ++ jsStr dependsOnId)),
     tr, orc)

/-! ## Tool dispatch (`dispatchTool`, worker.js lines 176-187) -/

/-- The `arguments` object of a `tools/call`; each declared argument
is `Option.none` when the caller omits it. -/
structure ToolArgs where
  story_id : Option String
  subject : Option String
  description : Option String
  active_form : Option String
  task_id : Option String
  status : Option String
  owner : Option String
  depends_on_id : Option String
deriving DecidableEq, Repr

/-- The empty arguments object `{}`. -/
def emptyArgs : ToolArgs :=
  ⟨Option.none, Option.none, Option.none, Option.none,
   Option.none, Option.none, Option.none, Option.none⟩

/-- `dispatchTool(name, args, env, sessionId)`: a pure name-to-handler
lookup; an unknown name throws. -/
def dispatchTool (name : Option String) (args : ToolArgs) (env : Env)
    (sessionId : String) (sessions : Sessions) (oracle : Oracle) :
    Except String ToolResult × List AdoReq × Sessions × Oracle :=
  if name = Option.some "set_story" then
    setStory args.story_id env sessionId sessions oracle
  else if name = Option.some "task_create" then
    taskCreate args.subject args.description args.active_form env sessionId sessions oracle
  else if name = Option.some "task_update" then
    let (r, tr, orc) := taskUpdate args.task_id args.status args.subject
      args.description args.owner env oracle
    (r, tr, sessions, orc)
  else if name = Option.some "task_list" then
    taskList env sessionId sessions oracle
  else if name = Option.some "task_get" then
    let (r, tr, orc) := taskGet args.task_id env oracle
    (r, tr, sessions, orc)
  else if name = Option.some "task_link" then
    let (r, tr, orc) := taskLink args.task_id args.depends_on_id env oracle
    (r, tr, sessions, orc)
  else if name = Option.some "task_list_mine" then
    let (r, tr, orc) := taskListMine env oracle
    (r, tr, sessions, orc)
  else if name = Option.some "story_resolve" then
    storyResolve env sessionId sessions oracle
  else (Except.error ("Unknown tool: " ++ jsStr name), [], sessions, oracle)

/-! ## Declared argument contracts (`TOOL_DEFS`, worker.js lines 11-91)

The `inputSchema.required` lists and the `status` enumeration, as
declared in the static tool catalog. -/

/-- The `required` list of each tool's declared input schema. -/
def toolRequiredArgs : String → List String
  | "set_story" => ["story_id"]
  | "task_create" => ["subject", "description"]
  | "task_update" => ["task_id"]
  | "task_get" => ["task_id"]
  | "task_link" => ["task_id", "depends_on_id"]
  | _ => []

/-- Whether a named argument is supplied in the arguments object. -/
def argSupplied (args : ToolArgs) : String → Bool
  | "story_id" => args.story_id.isSome
  | "subject" => args.subject.isSome
  | "description" => args.description.isSome
  | "active_form" => args.active_form.isSome
  | "task_id" => args.task_id.isSome
  | "status" => args.status.isSome
  | "owner" => args.owner.isSome
  | "depends_on_id" => args.depends_on_id.isSome
  | _ => false

/-- Whether an arguments object satisfies the declared JSON-Schema
contract of the named tool: all required fields present, and for
`task_update` a supplied `status` drawn from the declared
enumeration. -/
def schemaAccepts (name : String) (args : ToolArgs) : Bool :=
  (toolRequiredArgs name).all (argSupplied args) &&
  (if name = "task_update" then
    match args.status with
    | Option.none => true
    | Option.some s => ["pending", "in_progress", "completed", "deleted"].contains s
  else true)

/-! ## JSON-RPC protocol handler (`handleRpc`, worker.js lines 138-174) -/

/-- A JSON-RPC request identifier (number or string). -/
inductive RpcId
  | num (n : Int)
  | str (s : String)
deriving DecidableEq, Repr

/-- The `params` object of an envelope (`tools/call` uses `name` and
`arguments`). -/
structure RpcParams where
  name : Option String
  arguments : Option ToolArgs
deriving DecidableEq, Repr

/-- A JSON-RPC envelope.  `jsonrpc = Option.none` models an absent or
non-"2.0" tag; `method? = Option.none` models an absent or non-string
`method` (the source checks `typeof msg.method !== "string"`);
`id = Option.none` models an absent id. -/
structure RpcMsg where
  jsonrpc : Option String
  id : Option RpcId
  method? : Option String
  params : Option RpcParams
deriving DecidableEq, Repr

/-- One entry of a request body: a JS-falsy value (null, a number, …)
or an object envelope. -/
inductive RpcIn
  | nullMsg
  | msg (m : RpcMsg)
deriving DecidableEq, Repr

/-- The result payload of a successful JSON-RPC response.
`content r` models `{content:[{type:"text", text:JSON.stringify(r)}]}`;
`errorContent m` models the same shape built from
`JSON.stringify({error: m})` together with `isError: true`. -/
inductive RpcPayload
  | initInfo
  | emptyObj
  | toolsList
  | content (result : ToolResult)
  | errorContent (message : String)
deriving DecidableEq, Repr

/-- A JSON-RPC response: a `result` object (`rpcResult`) or an `error`
object (`rpcError`). -/
inductive RpcOut
  | result (id : Option RpcId) (payload : RpcPayload)
  | error (id : Option RpcId) (code : Int) (message : String)
deriving DecidableEq, Repr

/-- The id carried by a response object. -/
def RpcOut.outId : RpcOut → Option RpcId
  | RpcOut.result i _ => i
  | RpcOut.error i _ _ => i

/-- `msg?.id`: the id of an entry, `Option.none` for a falsy entry. -/
def RpcIn.inId : RpcIn → Option RpcId
  | RpcIn.nullMsg => Option.none
  | RpcIn.msg m => m.id

/-- `handleRpc(msg, env, sessionId)`: reject malformed envelopes with
an Invalid Request error; drop notifications (no response); answer the
handshake methods; run `tools/call` through the dispatcher, converting
a thrown error into error *content* on a successful response; reject
unknown methods with Method not found.  Returns the optional response
together with the updated sessions and remaining oracle. -/
def handleRpc (m : RpcIn) (env : Env) (sessionId : String)
    (sessions : Sessions) (oracle : Oracle) :
    Option RpcOut × Sessions × Oracle :=
  match m with
  | RpcIn.nullMsg =>
    (Option.some (RpcOut.error Option.none (-32600) "Invalid Request"), sessions, oracle)
  | RpcIn.msg msg =>
    if msg.jsonrpc ≠ Option.some "2.0" ∨ msg.method? = Option.none then
      (Option.some (RpcOut.error msg.id (-32600) "Invalid Request"), sessions, oracle)
    else
      let method := msg.method?.getD ""
      let params := msg.params.getD ⟨Option.none, Option.none⟩
      if method = "notifications/initialized" ∨ msg.id = Option.none then
        (Option.none, sessions, oracle)
      else if method = "initialize" then
        (Option.some (RpcOut.result msg.id RpcPayload.initInfo), sessions, oracle)
      else if method = "ping" then
        (Option.some (RpcOut.result msg.id RpcPayload.emptyObj), sessions, oracle)
      else if method = "tools/list" then
        (Option.some (RpcOut.result msg.id RpcPayload.toolsList), sessions, oracle)
      else if method = "tools/call" then
        match dispatchTool params.name (params.arguments.getD emptyArgs)
            env sessionId sessions oracle with
        | (Except.ok r, _, sessions2, orc2) =>
          (Option.some (RpcOut.result msg.id (RpcPayload.content r)), sessions2, orc2)
        | (Except.error e, _, sessions2, orc2) =>
          (Option.some (RpcOut.result msg.id (RpcPayload.errorContent e)), sessions2, orc2)
      else
        (Option.some (RpcOut.error msg.id (-32601) ("Method not found: " ++ method)),
         sessions, oracle)

/-- Whether `handleRpc` produces a response for an entry.  This
depends only on the envelope, never on the stores or the oracle. -/
def respondsTo : RpcIn → Bool
  | RpcIn.nullMsg => true
  | RpcIn.msg m =>
    if m.jsonrpc ≠ Option.some "2.0" ∨ m.method? = Option.none then true
    else if m.method?.getD "" = "notifications/initialized" ∨ m.id = Option.none then false
    else true

/-- Sequential model of `body.map(item => handleRpc(item, env,
sessionId))`.  The source awaits all entries via `Promise.all` and
reassembles the responses in input order; the embedding threads the
stores in input order, which fixes one interleaving — the properties
proved below (presence, order and ids of responses) are independent of
the interleaving because `respondsTo` and response ids depend only on
each envelope. -/
def runBatch (body : List RpcIn) (env : Env) (sessionId : String)
    (sessions : Sessions) (oracle : Oracle) :
    List (Option RpcOut) × Sessions × Oracle :=
  match body with
  | [] => ([], sessions, oracle)
  | m :: rest =>
    let (r, s1, o1) := handleRpc m env sessionId sessions oracle
    let (rs, s2, o2) := runBatch rest env sessionId s1 o1
    (r :: rs, s2, o2)

/-! ## Transport front-end (`fetch`, worker.js lines 93-136) -/

/-- A parsed request body: a single envelope, an array of envelopes,
or text that `request.json()` fails to parse. -/
inductive Body
  | single (m : RpcIn)
  | batch (ms : List RpcIn)
  | invalid
deriving DecidableEq, Repr

/-- An incoming HTTP request. -/
structure Request where
  method : String
  path : String
  headers : Headers
  body : Body

/-- The body of an outgoing HTTP response. -/
inductive RespBody
  | health
  | jsonErr (message : String)
  /-- The 429 body `{error, message, retry_after}`. -/
  | rateLimited (retryAfter : Nat)
  | rpcSingle (out : RpcOut)
  | rpcBatch (outs : List RpcOut)
  | noBody
  /-- The runtime failure raised when `await request.json()` throws
  (no handler catches it). -/
  | parseFailure
deriving DecidableEq, Repr

/-- An outgoing HTTP response. -/
structure HttpResponse where
  status : Nat
  headers : List (String × String)
  body : RespBody
deriving DecidableEq, Repr

/-- Mutable worker state threaded through a request: the session store
and the rate-limit counter store. -/
structure WState where
  sessions : Sessions
  rate : RLStore

/-- The `content-type` header set by the `json(...)` helper. -/
def ctJson : String × String := ("content-type", "application/json")

/-- `_sessionId(request)` (worker.js lines 446-452): `mcp-session-id`,
else `x-session-id`, else `"default"` (`||` skips empty values). -/
def _sessionId (hs : Headers) : String :=
  let a := hGet hs "mcp-session-id"
  if jsTruthyS a then a.getD ""
  else
    let b := hGet hs "x-session-id"
    if jsTruthyS b then b.getD "" else "default"

/-- The source-identity resolution of `_checkRateLimit`:
`CF-Connecting-IP`, else the first comma-separated entry of
`X-Forwarded-For` trimmed, else `"unknown"`. -/
def clientIP (hs : Headers) : String :=
  let cf := hGet hs "CF-Connecting-IP"
  if jsTruthyS cf then cf.getD ""
  else
    match hGet hs "X-Forwarded-For" with
    | Option.none => "unknown"
    | Option.some s =>
      let first := ((s.splitOn ",").headD "").trim
      if first = "" then "unknown" else first

/-- The `fetch` entry point (worker.js lines 93-136): health check,
path routing, the authentication gate, the rate-limit gate, the method
check, then body dispatch (single or batched), producing the HTTP
response and the updated stores.  `bucket` is the current one-second
bucket `Math.floor(Date.now() / 1000)`. -/
def fetchHandler (req : Request) (env : Env) (bucket : Nat) (st : WState)
    (oracle : Oracle) : HttpResponse × WState × Oracle :=
  if req.method = "GET" ∧ req.path = "/health" then
    (⟨200, [ctJson], RespBody.health⟩, st, oracle)
  else if req.path ≠ "/mcp" then
    (⟨404, [ctJson], RespBody.jsonErr "Not found"⟩, st, oracle)
  else if _isAuthorized req.headers env = false then
    (⟨401, [ctJson], RespBody.jsonErr "Unauthorized"⟩, st, oracle)
  else
    let (rl, rate2) := checkRateLimit st.rate (clientIP req.headers) bucket
    if rl.allowed = false then
      (⟨429, [ctJson, ("Retry-After", jsStrOfNat rl.retryAfter)],
        RespBody.rateLimited (rl.retryAfter.getD 0)⟩,
       ⟨st.sessions, rate2⟩, oracle)
    else if req.method ≠ "POST" then
      (⟨405, [ctJson], RespBody.jsonErr "Method not allowed"⟩,
       ⟨st.sessions, rate2⟩, oracle)
    else
      let sessionId := _sessionId req.headers
      match req.body with
      | Body.invalid =>
        (⟨500, [], RespBody.parseFailure⟩, ⟨st.sessions, rate2⟩, oracle)
      | Body.batch ms =>
        let (outs, s2, o2) := runBatch ms env sessionId st.sessions oracle
        (⟨200, [ctJson], RespBody.rpcBatch (outs.filterMap id)⟩, ⟨s2, rate2⟩, o2)
      | Body.single m =>
        match handleRpc m env sessionId st.sessions oracle with
        | (Option.none, s2, o2) => (⟨204, [], RespBody.noBody⟩, ⟨s2, rate2⟩, o2)
        | (Option.some out, s2, o2) =>
          (⟨200, [ctJson, ("Mcp-Session-Id", sessionId)], RespBody.rpcSingle out⟩,
           ⟨s2, rate2⟩, o2)

/-! ## Named request shapes (abbreviations for theorem statements) -/

/-- The full URL `adoRequest` builds for
`/wit/workitems/${storyId}?api-version=7.1`. -/
def wiUrl (env : Env) (storyId : Option String) : String :=
  _orgUrl env ++ "/" ++ jsStr env.ADO_PROJECT ++ "/_apis"
    ++ ("/wit/workitems/" ++ jsStr storyId ++ "?api-version=7.1")

/-- The GET issued first by `setStory`. -/
def storyGetReq (env : Env) (storyId : Option String) : AdoReq :=
  ⟨"GET", wiUrl env storyId, Option.none, "application/json"⟩

/-- The state-transition PATCH conditionally issued by `setStory`. -/
def storyActivateReq (env : Env) (storyId : Option String) : AdoReq :=
  ⟨"PATCH", wiUrl env storyId,
   Option.some (ReqBody.patch [⟨"add", "/fields/System.State", PatchVal.str "Active"⟩]),
   "application/json-patch+json"⟩

/-! ## Concrete sample data used to instantiate theorems -/

/-- A fully configured environment. -/
def exEnv : Env :=
  ⟨Option.some "pat", Option.some "org", Option.some "proj", Option.some "secret"⟩

/-- Headers carrying the correct `x-api-key` credential. -/
def exHeaders : Headers := [("x-api-key", "secret")]

/-- A well-formed `ping` envelope with a numeric id. -/
def pingMsg (n : Int) : RpcIn :=
  RpcIn.msg ⟨Option.some "2.0", Option.some (RpcId.num n), Option.some "ping", Option.none⟩

/-- A well-formed `notifications/initialized` notification. -/
def notifMsg : RpcIn :=
  RpcIn.msg ⟨Option.some "2.0", Option.none, Option.some "notifications/initialized", Option.none⟩

/-- A work-item response whose fields carry a title, a type and a
state. -/
def exStory (state : String) : AdoResp :=
  ⟨Option.some 42,
   Option.some ⟨Option.some "My story", Option.some "User Story", Option.some state,
     Option.none, Option.none, Option.none⟩,
   Option.none, Option.none, Option.none, Option.none⟩

/-! ## Helper lemmas -/

theorem rlGet_rlPut_self (store : RLStore) (k : String) (v : Nat) :
    rlGet (rlPut store k v) k = v := by
  simp [rlGet, rlPut, List.lookup]

theorem rlGet_rlPut_other (store : RLStore) (k k' : String) (v : Nat)
    (h : k' ≠ k) : rlGet (rlPut store k v) k' = rlGet store k' := by
  simp [rlGet, rlPut, List.lookup, beq_false_of_ne h]

/-- After `n` sequential calls in one bucket starting from a store in
which that bucket's counter is 0, the counter reads `min n 10`. -/
theorem rlGet_rlRunFrom (store : RLStore) (ip : String) (bucket : Nat)
    (h0 : rlGet store (rlKey ip bucket) = 0) (n : Nat) :
    rlGet (rlRunFrom store ip bucket n) (rlKey ip bucket) = min n RATE_LIMIT := by
  induction n with
  | zero => simpa [rlRunFrom, RATE_LIMIT] using h0
  | succ n ih =>
    simp only [rlRunFrom, checkRateLimit]
    by_cases hc : RATE_LIMIT ≤ rlGet (rlRunFrom store ip bucket n) (rlKey ip bucket)
    · simp only [hc, if_pos]
      omega
    · simp only [hc, if_neg, not_false_eq_true]
      rw [rlGet_rlPut_self]
      omega

/-- Calls in one bucket never touch another key. -/
theorem rlGet_rlRunFrom_other (store : RLStore) (ip : String) (bucket : Nat)
    (k : String) (hk : k ≠ rlKey ip bucket) (n : Nat) :
    rlGet (rlRunFrom store ip bucket n) k = rlGet store k := by
  induction n with
  | zero => rfl
  | succ n ih =>
    simp only [rlRunFrom, checkRateLimit]
    by_cases hc : RATE_LIMIT ≤ rlGet (rlRunFrom store ip bucket n) (rlKey ip bucket)
    · simp only [hc, if_pos]
      exact ih
    · simp only [hc, if_neg, not_false_eq_true]
      rw [rlGet_rlPut_other _ _ _ _ hk]
      exact ih

/-- A successfully-configured `adoRequest` issues exactly one request,
whatever the oracle answers. -/
theorem adoRequest_trace (env : Env) (method path : String)
    (body : Option ReqBody) (ct : String) (oracle : Oracle)
    (henv : _requiredEnv env = Except.ok ()) :
    (adoRequest env method path body ct oracle).2.1
      = [⟨method, _orgUrl env ++ "/" ++ jsStr env.ADO_PROJECT ++ "/_apis" ++ path,
          body, ct⟩] := by
  simp only [adoRequest, henv]
  cases oracle with
  | nil => rfl
  | cons o rest => cases o <;> rfl

/-- Decomposition of `adoRequest` into its result, its one-request
trace, and the remaining oracle. -/
theorem adoRequest_eq (env : Env) (method path : String)
    (body : Option ReqBody) (ct : String) (oracle : Oracle)
    (henv : _requiredEnv env = Except.ok ()) :
    ∃ res orc, adoRequest env method path body ct oracle
      = (res, [⟨method, _orgUrl env ++ "/" ++ jsStr env.ADO_PROJECT ++ "/_apis" ++ path,
          body, ct⟩], orc) := by
  refine ⟨(adoRequest env method path body ct oracle).1,
    (adoRequest env method path body ct oracle).2.2, ?_⟩
  have h := adoRequest_trace env method path body ct oracle henv
  exact Prod.ext rfl (Prod.ext h rfl)

/-- `story:` keys of distinct sessions are distinct. -/
theorem storyKey_inj {a b : String} (h : storyKey a = storyKey b) : a = b := by
  have hd := congrArg String.data h
  simp only [storyKey, String.data_append] at hd
  exact String.ext (List.append_cancel_left hd)

/-- Whatever the oracle answers, the first remote request issued by
`setStory` is the work-item GET. -/
theorem setStory_trace_head (storyId : Option String) (env : Env)
    (sessionId : String) (sessions : Sessions) (oracle : Oracle)
    (henv : _requiredEnv env = Except.ok ()) :
    (setStory storyId env sessionId sessions oracle).2.1.head?
      = Option.some (storyGetReq env storyId) := by
  obtain ⟨res, orc, hreq⟩ := adoRequest_eq env "GET"
    ("/wit/workitems/" ++ jsStr storyId ++ "?api-version=7.1")
    Option.none "application/json" oracle henv
  unfold setStory
  rw [hreq]
  cases res with
  | error e => simp [storyGetReq, wiUrl]
  | ok wi =>
    simp only []
    split
    · obtain ⟨res2, orc2, hreq2⟩ := adoRequest_eq env "PATCH"
        ("/wit/workitems/" ++ jsStr storyId ++ "?api-version=7.1")
        (Option.some (ReqBody.patch
          [⟨"add", "/fields/System.State", PatchVal.str "Active"⟩]))
        "application/json-patch+json" orc henv
      rw [hreq2]
      cases res2 <;> simp [storyGetReq, wiUrl]
    · simp [storyGetReq, wiUrl]

theorem mem_ite_singleton {α : Type} {c : Prop} [Decidable c] {x y : α}
    (h : y ∈ if c then [x] else []) : y = x := by
  split at h
  · simpa using h
  · simp at h

/-- `taskUpdate` with a truthy status found in `STATE_MAP` issues
exactly one PATCH, whose first operation sets `System.State` to the
mapped value and whose remaining operations never touch
`System.State`. -/
theorem taskUpdate_known_status (taskId subject description owner : Option String)
    (env : Env) (oracle : Oracle) (henv : _requiredEnv env = Except.ok ())
    (s v : String) (hs : jsTruthyS (Option.some s) = true)
    (hlook : STATE_MAP.lookup s = Option.some v) :
    ∃ ops res orc,
      taskUpdate taskId (Option.some s) subject description owner env oracle
        = (res, [⟨"PATCH", wiUrl env taskId, Option.some (ReqBody.patch ops),
             "application/json-patch+json"⟩], orc) ∧
      ops.head? = Option.some ⟨"add", "/fields/System.State", PatchVal.str v⟩ ∧
      ∀ op ∈ ops.tail, op.path ≠ "/fields/System.State" := by
  have hobj : jsObjGet STATE_MAP s = JsProp.str v := by
    unfold jsObjGet
    rw [hlook]
  unfold taskUpdate
  rw [hs, if_pos rfl]
  simp only [Option.getD_some]
  rw [hobj]
  simp only [List.singleton_append, List.cons_append, List.nil_append,
    List.append_assoc, List.isEmpty_cons, Bool.false_eq_true, if_false]
  obtain ⟨res, orc, hreq⟩ := adoRequest_eq env "PATCH"
    ("/wit/workitems/" ++ jsStr taskId ++ "?api-version=7.1")
    (Option.some (ReqBody.patch
      (⟨"add", "/fields/System.State", PatchVal.str v⟩ ::
        ((if jsTruthyS subject then
            [(⟨"add", "/fields/System.Title", PatchVal.str (subject.getD "")⟩ : PatchOp)]
          else []) ++
         ((if jsTruthyS description then
            [(⟨"add", "/fields/System.Description", PatchVal.str (description.getD "")⟩ : PatchOp)]
           else []) ++
          (if jsTruthyS owner then
            [(⟨"add", "/fields/System.AssignedTo", PatchVal.str (owner.getD "")⟩ : PatchOp)]
           else []))))))
    "application/json-patch+json" oracle henv
  rw [hreq]
  cases res <;>
    · refine ⟨_, _, _, rfl, rfl, ?_⟩
      intro op hop
      simp only [List.tail_cons, List.mem_append] at hop
      rcases hop with h | h | h <;> rw [mem_ite_singleton h] <;> simp

/-- `taskUpdate` with a truthy status that is no own key of
`STATE_MAP` but names an inherited `Object.prototype` member does not
throw InvalidStatus: it issues a PATCH whose first operation carries
the inherited member as the `System.State` value. -/
theorem taskUpdate_proto_status (taskId subject description owner : Option String)
    (env : Env) (oracle : Oracle) (henv : _requiredEnv env = Except.ok ())
    (s : String) (hs : jsTruthyS (Option.some s) = true)
    (hlook : STATE_MAP.lookup s = Option.none)
    (hmem : OBJECT_PROTOTYPE_MEMBERS.contains s = true) :
    ∃ ops res orc,
      taskUpdate taskId (Option.some s) subject description owner env oracle
        = (res, [⟨"PATCH", wiUrl env taskId, Option.some (ReqBody.patch ops),
             "application/json-patch+json"⟩], orc) ∧
      ops.head? = Option.some ⟨"add", "/fields/System.State", PatchVal.protoMember s⟩ := by
  have hobj : jsObjGet STATE_MAP s = JsProp.inherited s := by
    unfold jsObjGet
    rw [hlook, if_pos hmem]
  unfold taskUpdate
  rw [hs, if_pos rfl]
  simp only [Option.getD_some]
  rw [hobj]
  simp only [List.singleton_append, List.cons_append, List.nil_append,
    List.append_assoc, List.isEmpty_cons, Bool.false_eq_true, if_false]
  obtain ⟨res, orc, hreq⟩ := adoRequest_eq env "PATCH"
    ("/wit/workitems/" ++ jsStr taskId ++ "?api-version=7.1")
    (Option.some (ReqBody.patch
      (⟨"add", "/fields/System.State", PatchVal.protoMember s⟩ ::
        ((if jsTruthyS subject then
            [(⟨"add", "/fields/System.Title", PatchVal.str (subject.getD "")⟩ : PatchOp)]
          else []) ++
         ((if jsTruthyS description then
            [(⟨"add", "/fields/System.Description", PatchVal.str (description.getD "")⟩ : PatchOp)]
           else []) ++
          (if jsTruthyS owner then
            [(⟨"add", "/fields/System.AssignedTo", PatchVal.str (owner.getD "")⟩ : PatchOp)]
           else []))))))
    "application/json-patch+json" oracle henv
  rw [hreq]
  cases res <;> exact ⟨_, _, _, rfl, rfl⟩

theorem adoRequest_ok_cons (env : Env) (method path : String)
    (body : Option ReqBody) (ct : String) (wi : AdoResp) (rest : Oracle)
    (henv : _requiredEnv env = Except.ok ()) :
    adoRequest env method path body ct (AdoOutcome.ok wi :: rest)
      = (Except.ok wi,
         [⟨method, _orgUrl env ++ "/" ++ jsStr env.ADO_PROJECT ++ "/_apis" ++ path, body, ct⟩],
         rest) := by
  simp [adoRequest, henv]

theorem adoRequest_err_cons (env : Env) (method path : String)
    (body : Option ReqBody) (ct : String) (e : String) (rest : Oracle)
    (henv : _requiredEnv env = Except.ok ()) :
    adoRequest env method path body ct (AdoOutcome.err e :: rest)
      = (Except.error e,
         [⟨method, _orgUrl env ++ "/" ++ jsStr env.ADO_PROJECT ++ "/_apis" ++ path, body, ct⟩],
         rest) := by
  simp [adoRequest, henv]

/-- When the story fetch succeeds, `setStory` always saves the story
id for the session, whatever the fetched state and whatever happens to
the conditional transition request. -/
theorem setStory_ok_sessions (storyId : Option String) (env : Env)
    (sessionId : String) (sessions : Sessions) (wi : AdoResp) (rest : Oracle)
    (henv : _requiredEnv env = Except.ok ()) :
    (setStory storyId env sessionId sessions (AdoOutcome.ok wi :: rest)).2.2.1
      = saveStoryId sessions sessionId storyId := by
  unfold setStory
  rw [adoRequest_ok_cons env "GET"
    ("/wit/workitems/" ++ jsStr storyId ++ "?api-version=7.1")
    Option.none "application/json" wi rest henv]
  dsimp only
  split
  · obtain ⟨res2, orc2, hreq2⟩ := adoRequest_eq env "PATCH"
      ("/wit/workitems/" ++ jsStr storyId ++ "?api-version=7.1")
      (Option.some (ReqBody.patch [⟨"add", "/fields/System.State", PatchVal.str "Active"⟩]))
      "application/json-patch+json" rest henv
    rw [hreq2]
    cases res2 <;> rfl
  · rfl

/-- When the story fetch succeeds, the requests issued by `setStory`
are the GET followed by exactly one state-transition PATCH when the
fetched state is in `STORY_ACTIVE_STATES`, and the GET alone
otherwise. -/
theorem setStory_ok_trace (storyId : Option String) (env : Env)
    (sessionId : String) (sessions : Sessions) (wi : AdoResp) (rest : Oracle)
    (henv : _requiredEnv env = Except.ok ()) :
    (setStory storyId env sessionId sessions (AdoOutcome.ok wi :: rest)).2.1
      = if STORY_ACTIVE_STATES.contains ((wi.fields.getD emptyFields).sysState.getD "") then
          [storyGetReq env storyId, storyActivateReq env storyId]
        else [storyGetReq env storyId] := by
  unfold setStory
  rw [adoRequest_ok_cons env "GET"
    ("/wit/workitems/" ++ jsStr storyId ++ "?api-version=7.1")
    Option.none "application/json" wi rest henv]
  dsimp only
  split
  case isTrue h =>
    obtain ⟨res2, orc2, hreq2⟩ := adoRequest_eq env "PATCH"
      ("/wit/workitems/" ++ jsStr storyId ++ "?api-version=7.1")
      (Option.some (ReqBody.patch [⟨"add", "/fields/System.State", PatchVal.str "Active"⟩]))
      "application/json-patch+json" rest henv
    rw [hreq2]
    cases res2 <;> simp [storyGetReq, storyActivateReq, wiUrl]
  case isFalse h =>
    simp [storyGetReq, wiUrl]

/-- Whether an entry gets a response depends only on the envelope,
never on the stores or the oracle. -/
theorem handleRpc_isSome (m : RpcIn) (env : Env) (sessionId : String)
    (sessions : Sessions) (oracle : Oracle) :
    ((handleRpc m env sessionId sessions oracle).1).isSome = respondsTo m := by
  cases m with
  | nullMsg => rfl
  | msg msg =>
    unfold handleRpc respondsTo
    dsimp only
    by_cases h1 : msg.jsonrpc ≠ Option.some "2.0" ∨ msg.method? = Option.none
    · rw [if_pos h1, if_pos h1]
      rfl
    · rw [if_neg h1, if_neg h1]
      by_cases h2 : msg.method?.getD "" = "notifications/initialized" ∨ msg.id = Option.none
      · rw [if_pos h2, if_pos h2]
        rfl
      · rw [if_neg h2, if_neg h2]
        repeat (split <;> try rfl)

/-- Every produced response carries the id of its envelope. -/
theorem handleRpc_outId (m : RpcIn) (env : Env) (sessionId : String)
    (sessions : Sessions) (oracle : Oracle) (out : RpcOut)
    (h : (handleRpc m env sessionId sessions oracle).1 = Option.some out) :
    out.outId = RpcIn.inId m := by
  cases m with
  | nullMsg =>
    simp only [handleRpc, Option.some.injEq] at h
    subst h
    rfl
  | msg msg =>
    unfold handleRpc at h
    dsimp only at h
    split at h
    · simp only [Option.some.injEq] at h
      subst h
      rfl
    · split at h
      · simp at h
      · split at h
        · simp only [Option.some.injEq] at h
          subst h
          rfl
        · split at h
          · simp only [Option.some.injEq] at h
            subst h
            rfl
          · split at h
            · simp only [Option.some.injEq] at h
              subst h
              rfl
            · split at h
              · split at h <;>
                  · simp only [Option.some.injEq] at h
                    subst h
                    rfl
              · simp only [Option.some.injEq] at h
                subst h
                rfl

/-- The ids of a batch's responses are, in order, the ids of exactly
the entries that get a response. -/
theorem runBatch_ids (body : List RpcIn) (env : Env) (sessionId : String)
    (sessions : Sessions) (oracle : Oracle) :
    ((runBatch body env sessionId sessions oracle).1.filterMap id).map RpcOut.outId
      = (body.filter respondsTo).map RpcIn.inId := by
  induction body generalizing sessions oracle with
  | nil => rfl
  | cons m rest ih =>
    have hstep : (runBatch (m :: rest) env sessionId sessions oracle).1
        = (handleRpc m env sessionId sessions oracle).1
          :: (runBatch rest env sessionId
               (handleRpc m env sessionId sessions oracle).2.1
               (handleRpc m env sessionId sessions oracle).2.2).1 := rfl
    rw [hstep]
    cases hr : (handleRpc m env sessionId sessions oracle).1 with
    | none =>
      have hresp : respondsTo m = false := by
        have hs := handleRpc_isSome m env sessionId sessions oracle
        rw [hr] at hs
        simpa using hs.symm
      simp [List.filterMap_cons, hresp, ih, List.filter_cons]
    | some out =>
      have hresp : respondsTo m = true := by
        have hs := handleRpc_isSome m env sessionId sessions oracle
        rw [hr] at hs
        simpa using hs.symm
      have hid := handleRpc_outId m env sessionId sessions oracle out hr
      simp [List.filterMap_cons, hresp, ih, hid, List.filter_cons]

/-- Claim C1: for every source identity and one-second bucket, with the
limit constant 10 and sequential calls, the 1st through 10th
`_checkRateLimit` calls in that bucket are allowed, the 11th and every
later call in the same bucket are rejected with `retryAfter = 1`, and
the first call in the next bucket is allowed again no matter how many
calls the prior bucket received. -/
theorem rate_limiter_window_behavior
    (ip : String) (bucket : Nat) (store : RLStore)
    (h0 : rlGet store (rlKey ip bucket) = 0)
    (h1 : rlGet store (rlKey ip (bucket + 1)) = 0)
    (hk : rlKey ip (bucket + 1) ≠ rlKey ip bucket) :
    (∀ n, 1 ≤ n → n ≤ 10 →
      (checkRateLimit (rlRunFrom store ip bucket (n - 1)) ip bucket).1
        = ⟨true, Option.none⟩) ∧
    (∀ n, 11 ≤ n →
      (checkRateLimit (rlRunFrom store ip bucket (n - 1)) ip bucket).1
        = ⟨false, Option.some 1⟩) ∧
    (∀ n, (checkRateLimit (rlRunFrom store ip bucket n) ip (bucket + 1)).1
        = ⟨true, Option.none⟩) := by
  refine ⟨?_, ?_, ?_⟩
  · intro n hge hle
    simp only [checkRateLimit, rlGet_rlRunFrom store ip bucket h0]
    have hcond : ¬ (RATE_LIMIT ≤ min (n - 1) RATE_LIMIT) := by
      simp only [RATE_LIMIT]; omega
    simp [hcond]
  · intro n hge
    simp only [checkRateLimit, rlGet_rlRunFrom store ip bucket h0]
    have hcond : RATE_LIMIT ≤ min (n - 1) RATE_LIMIT := by
      simp only [RATE_LIMIT]; omega
    simp [hcond]
  · intro n
    simp only [checkRateLimit, rlGet_rlRunFrom_other store ip bucket _ hk n, h1]
    simp [RATE_LIMIT]

/-- Witness for C1 at a concrete identity and bucket: the 10th call is
allowed, the 11th rejected with retry-after 1, and the first call of
the next bucket allowed. -/
theorem rate_limiter_window_behavior_witness :
    (checkRateLimit (rlRunFrom [] "203.0.113.9" 0 9) "203.0.113.9" 0).1
      = ⟨true, Option.none⟩ ∧
    (checkRateLimit (rlRunFrom [] "203.0.113.9" 0 10) "203.0.113.9" 0).1
      = ⟨false, Option.some 1⟩ ∧
    (checkRateLimit (rlRunFrom [] "203.0.113.9" 0 10) "203.0.113.9" 1).1
      = ⟨true, Option.none⟩ := by
  have h := rate_limiter_window_behavior "203.0.113.9" 0 [] rfl rfl (by decide)
  exact ⟨h.1 10 (by decide) (by decide), h.2.1 11 (by decide), h.2.2 10⟩

/-- Claim C2: every request to the /mcp path is rejected with status
401 — with the stores and the remote tracker untouched — whenever no
shared secret is configured (unset or empty `MCP_API_KEY` is falsy) or
the request supplies neither an `x-api-key` header equal to the secret
nor an `authorization` header `Bearer <secret>`.  This holds for every
HTTP method and every body, valid or not, so a missing secret never
leaves the gate open. -/
theorem mcp_unauthorized_always_401
    (req : Request) (env : Env) (bucket : Nat) (st : WState) (oracle : Oracle)
    (hpath : req.path = "/mcp")
    (hcred : jsTruthyS env.MCP_API_KEY = false ∨
      (hGet req.headers "x-api-key" ≠ env.MCP_API_KEY ∧
       bearerOf req.headers ≠ env.MCP_API_KEY)) :
    fetchHandler req env bucket st oracle
      = (⟨401, [ctJson], RespBody.jsonErr "Unauthorized"⟩, st, oracle) := by
  have hauth : _isAuthorized req.headers env = false := by
    unfold _isAuthorized
    rcases hcred with h | ⟨hx, hb⟩
    · simp [h]
    · by_cases ht : jsTruthyS env.MCP_API_KEY = false
      · simp [ht]
      · simp [ht, hx, hb]
  have h1 : ¬ (req.method = "GET" ∧ req.path = "/health") := by
    rintro ⟨-, h⟩
    rw [hpath] at h
    exact absurd h (by decide)
  have h2 : ¬ (req.path ≠ "/mcp") := by
    rw [hpath]
    simp
  unfold fetchHandler
  rw [if_neg h1, if_neg h2, if_pos hauth]

/-- Witness for C2: a POST to /mcp with a well-formed body but no
secret configured is rejected with 401. -/
theorem mcp_unauthorized_always_401_witness :
    jsTruthyS (Env.mk (Option.some "pat") (Option.some "org") (Option.some "proj")
        Option.none).MCP_API_KEY = false ∧
    fetchHandler ⟨"POST", "/mcp", [], Body.single (pingMsg 1)⟩
        ⟨Option.some "pat", Option.some "org", Option.some "proj", Option.none⟩ 0
        ⟨([] : Sessions), ([] : RLStore)⟩ ([] : Oracle)
      = (⟨401, [ctJson], RespBody.jsonErr "Unauthorized"⟩,
         ⟨([] : Sessions), ([] : RLStore)⟩, ([] : Oracle)) := by
  exact ⟨rfl, mcp_unauthorized_always_401 _ _ _ _ _ rfl (Or.inl rfl)⟩

/-- Claim C3 counterexample: `set_story` invoked with no arguments at
all — violating its declared schema, whose `required` list contains
`story_id` — still issues a remote GET for work item "undefined"
instead of failing before any remote call. -/
theorem set_story_schema_violation_counterexample :
    schemaAccepts "set_story" emptyArgs = false ∧
    (dispatchTool (Option.some "set_story") emptyArgs exEnv "default"
        ([] : Sessions) ([] : Oracle)).2.1
      = [⟨"GET", "https://dev.azure.com/org/proj/_apis/wit/workitems/undefined?api-version=7.1",
          Option.none, "application/json"⟩] := by
  exact ⟨rfl, rfl⟩

/-- Claim C3 amended: the dispatcher performs no validation of the
declared argument schemas; a `tools/call` whose arguments violate the
contract is not guaranteed to fail before a remote call — whenever the
tracker configuration is present, `set_story` without the required
`story_id` issues a remote GET (for the id rendered "undefined") as
its first action, for every session store and oracle. -/
theorem set_story_missing_arg_attempts_remote
    (env : Env) (sessionId : String) (sessions : Sessions) (oracle : Oracle)
    (henv : _requiredEnv env = Except.ok ()) :
    schemaAccepts "set_story" emptyArgs = false ∧
    (dispatchTool (Option.some "set_story") emptyArgs env sessionId sessions oracle).2.1.head?
      = Option.some (storyGetReq env Option.none) := by
  refine ⟨rfl, ?_⟩
  unfold dispatchTool
  rw [if_pos rfl]
  exact setStory_trace_head Option.none env sessionId sessions oracle henv

/-- Witness for the amended C3 at a concrete configured environment. -/
theorem set_story_missing_arg_attempts_remote_witness :
    _requiredEnv exEnv = Except.ok () ∧
    (schemaAccepts "set_story" emptyArgs = false ∧
     (dispatchTool (Option.some "set_story") emptyArgs exEnv "default"
         ([] : Sessions) ([] : Oracle)).2.1.head?
       = Option.some (storyGetReq exEnv Option.none)) :=
  ⟨rfl, set_story_missing_arg_attempts_remote exEnv "default" [] [] rfl⟩

/-- Claim C4 counterexample: two supplied statuses outside the four
logical values for which `task_update` does not fail with an
InvalidStatus error.  The empty string is falsy and treated as absent,
so the call succeeds as a no-op; and "toString" names an inherited
`Object.prototype` member, so `STATE_MAP["toString"]` is truthy, no
error is thrown, and a remote PATCH carrying the inherited member as
the state value is issued. -/
theorem task_update_fifth_status_counterexample :
    taskUpdate (Option.some "7") (Option.some "") Option.none Option.none
        Option.none exEnv ([] : Oracle)
      = (Except.ok (ToolResult.taskUpdateNoop (Option.some "7") "No fields to update"),
         [], []) ∧
    taskUpdate (Option.some "7") (Option.some "toString") Option.none Option.none
        Option.none exEnv [AdoOutcome.ok (exStory "Active")]
      = (Except.ok (ToolResult.taskUpdateR (Option.some "7")
           (Option.some "My story") (Option.some "Active")),
         [⟨"PATCH", "https://dev.azure.com/org/proj/_apis/wit/workitems/7?api-version=7.1",
           Option.some (ReqBody.patch
             [⟨"add", "/fields/System.State", PatchVal.protoMember "toString"⟩]),
           "application/json-patch+json"⟩], []) := by
  exact ⟨rfl, rfl⟩

/-- Claim C4 amended: for each of the four logical statuses,
`task_update` issues exactly one PATCH whose first operation sets the
remote state to exactly the mapped value ("To Do", "Active", "Closed",
"Removed") and whose other operations never touch the state.  A
supplied status outside the four fails with the InvalidStatus error
naming the accepted set, without any remote call, only when it is
non-empty and not the name of an inherited `Object.prototype` member:
an empty-string status is falsy and treated as not supplied, and a
status naming an inherited member ("toString", "constructor",
"valueOf", …) is truthy under `STATE_MAP[status]`, so no error is
raised and a remote PATCH carrying the inherited member as the state
value is issued. -/
theorem task_update_status_contract
    (taskId subject description owner : Option String) (env : Env)
    (oracle : Oracle) (henv : _requiredEnv env = Except.ok ()) :
    (∀ s v, (s, v) ∈ STATE_MAP →
      ∃ ops res orc,
        taskUpdate taskId (Option.some s) subject description owner env oracle
          = (res, [⟨"PATCH", wiUrl env taskId, Option.some (ReqBody.patch ops),
               "application/json-patch+json"⟩], orc) ∧
        ops.head? = Option.some ⟨"add", "/fields/System.State", PatchVal.str v⟩ ∧
        ∀ op ∈ ops.tail, op.path ≠ "/fields/System.State") ∧
    (∀ s, s ≠ "" → STATE_MAP.lookup s = Option.none →
      OBJECT_PROTOTYPE_MEMBERS.contains s = false →
      taskUpdate taskId (Option.some s) subject description owner env oracle
        = (Except.error ("Unknown status '" ++ s
            ++ "'. Use: pending, in_progress, completed, deleted"), [], oracle)) ∧
    (∀ s, s ≠ "" → STATE_MAP.lookup s = Option.none →
      OBJECT_PROTOTYPE_MEMBERS.contains s = true →
      ∃ ops res orc,
        taskUpdate taskId (Option.some s) subject description owner env oracle
          = (res, [⟨"PATCH", wiUrl env taskId, Option.some (ReqBody.patch ops),
               "application/json-patch+json"⟩], orc) ∧
        ops.head? = Option.some ⟨"add", "/fields/System.State", PatchVal.protoMember s⟩) := by
  refine ⟨?_, ?_, ?_⟩
  · intro s v hmem
    fin_cases hmem <;>
      exact taskUpdate_known_status taskId subject description owner env oracle henv
        _ _ rfl rfl
  · intro s hne hlook hnotmem
    have hs : jsTruthyS (Option.some s) = true := by
      simp [jsTruthyS, hne]
    have hobj : jsObjGet STATE_MAP s = JsProp.undef := by
      unfold jsObjGet
      rw [hlook, if_neg (by simpa using hnotmem)]
    unfold taskUpdate
    rw [hs, if_pos rfl]
    simp only [Option.getD_some]
    rw [hobj]
    simp [jsStr]
  · intro s hne hlook hmem
    exact taskUpdate_proto_status taskId subject description owner env oracle henv
      s (by simp [jsTruthyS, hne]) hlook hmem

/-- Witness for the amended C4: status `in_progress` patches the state
to "Active"; status `wontfix` fails with InvalidStatus and no remote
call; status `toString` issues a PATCH carrying the inherited member. -/
theorem task_update_status_contract_witness :
    (∃ ops res orc,
      taskUpdate (Option.some "7") (Option.some "in_progress")
          Option.none Option.none Option.none exEnv ([] : Oracle)
        = (res, [⟨"PATCH", wiUrl exEnv (Option.some "7"),
             Option.some (ReqBody.patch ops), "application/json-patch+json"⟩], orc) ∧
      ops.head? = Option.some ⟨"add", "/fields/System.State", PatchVal.str "Active"⟩ ∧
      ∀ op ∈ ops.tail, op.path ≠ "/fields/System.State") ∧
    taskUpdate (Option.some "7") (Option.some "wontfix")
        Option.none Option.none Option.none exEnv ([] : Oracle)
      = (Except.error "Unknown status 'wontfix'. Use: pending, in_progress, completed, deleted",
         [], []) ∧
    (∃ ops res orc,
      taskUpdate (Option.some "7") (Option.some "toString")
          Option.none Option.none Option.none exEnv ([] : Oracle)
        = (res, [⟨"PATCH", wiUrl exEnv (Option.some "7"),
             Option.some (ReqBody.patch ops), "application/json-patch+json"⟩], orc) ∧
      ops.head? = Option.some ⟨"add", "/fields/System.State",
        PatchVal.protoMember "toString"⟩) := by
  have h := task_update_status_contract (Option.some "7") Option.none Option.none
    Option.none exEnv [] rfl
  exact ⟨h.1 "in_progress" "Active" (by decide),
    h.2.1 "wontfix" (by decide) rfl (by decide),
    h.2.2 "toString" (by decide) rfl (by decide)⟩

/-- Claim C5: for every `set_story` call whose story fetch succeeds,
the session's active story id is always recorded; exactly one
state-transition PATCH to "Active" is issued (after the GET) when the
fetched state is in {New, Approved, Committed, Design}; and no
transition request is issued when the fetched state is outside that
set. -/
theorem set_story_transition_policy
    (storyId : Option String) (env : Env) (sessionId : String)
    (sessions : Sessions) (wi : AdoResp) (rest : Oracle)
    (henv : _requiredEnv env = Except.ok ()) :
    (setStory storyId env sessionId sessions (AdoOutcome.ok wi :: rest)).2.2.1
      = saveStoryId sessions sessionId storyId ∧
    (setStory storyId env sessionId sessions (AdoOutcome.ok wi :: rest)).2.1
      = (if STORY_ACTIVE_STATES.contains ((wi.fields.getD emptyFields).sysState.getD "") then
           [storyGetReq env storyId, storyActivateReq env storyId]
         else [storyGetReq env storyId]) :=
  ⟨setStory_ok_sessions storyId env sessionId sessions wi rest henv,
   setStory_ok_trace storyId env sessionId sessions wi rest henv⟩

/-- Witness for C5 on a story fetched in state "New". -/
theorem set_story_transition_policy_witness :
    _requiredEnv exEnv = Except.ok () ∧
    ((setStory (Option.some "42") exEnv "default" ([] : Sessions)
        [AdoOutcome.ok (exStory "New"), AdoOutcome.ok (exStory "Active")]).2.2.1
       = saveStoryId [] "default" (Option.some "42") ∧
     (setStory (Option.some "42") exEnv "default" ([] : Sessions)
        [AdoOutcome.ok (exStory "New"), AdoOutcome.ok (exStory "Active")]).2.1
       = (if STORY_ACTIVE_STATES.contains
              (((exStory "New").fields.getD emptyFields).sysState.getD "") then
            [storyGetReq exEnv (Option.some "42"), storyActivateReq exEnv (Option.some "42")]
          else [storyGetReq exEnv (Option.some "42")])) :=
  ⟨rfl, set_story_transition_policy (Option.some "42") exEnv "default" []
    (exStory "New") [AdoOutcome.ok (exStory "Active")] rfl⟩

/-- Claim C10: `set_story` is not atomic with respect to error — when
the story fetch succeeds and the fetched state calls for a transition,
the session's active story id is overwritten before the transition
PATCH is attempted, so a remote failure of that PATCH surfaces as an
error while the session context already points at the new story id. -/
theorem set_story_not_atomic_on_transition_failure
    (storyId : Option String) (env : Env) (sessionId : String)
    (sessions : Sessions) (wi : AdoResp) (e : String) (rest : Oracle)
    (henv : _requiredEnv env = Except.ok ())
    (hactive : STORY_ACTIVE_STATES.contains ((wi.fields.getD emptyFields).sysState.getD "")
      = true) :
    (setStory storyId env sessionId sessions
        (AdoOutcome.ok wi :: AdoOutcome.err e :: rest)).1
      = Except.error e ∧
    (setStory storyId env sessionId sessions
        (AdoOutcome.ok wi :: AdoOutcome.err e :: rest)).2.2.1
      = saveStoryId sessions sessionId storyId := by
  refine ⟨?_, setStory_ok_sessions storyId env sessionId sessions wi
    (AdoOutcome.err e :: rest) henv⟩
  unfold setStory
  rw [adoRequest_ok_cons env "GET"
    ("/wit/workitems/" ++ jsStr storyId ++ "?api-version=7.1")
    Option.none "application/json" wi (AdoOutcome.err e :: rest) henv]
  dsimp only
  split
  case isTrue h =>
    rw [adoRequest_err_cons env "PATCH"
      ("/wit/workitems/" ++ jsStr storyId ++ "?api-version=7.1")
      (Option.some (ReqBody.patch [⟨"add", "/fields/System.State", PatchVal.str "Active"⟩]))
      "application/json-patch+json" e rest henv]
  case isFalse h => exact absurd hactive h

/-- Witness for C10 on a story fetched in state "Committed" whose
transition PATCH fails remotely. -/
theorem set_story_not_atomic_witness :
    STORY_ACTIVE_STATES.contains
        (((exStory "Committed").fields.getD emptyFields).sysState.getD "") = true ∧
    ((setStory (Option.some "42") exEnv "default" ([] : Sessions)
        [AdoOutcome.ok (exStory "Committed"), AdoOutcome.err "remote failure"]).1
       = Except.error "remote failure" ∧
     (setStory (Option.some "42") exEnv "default" ([] : Sessions)
        [AdoOutcome.ok (exStory "Committed"), AdoOutcome.err "remote failure"]).2.2.1
       = saveStoryId [] "default" (Option.some "42")) :=
  ⟨by decide, set_story_not_atomic_on_transition_failure (Option.some "42") exEnv
    "default" [] (exStory "Committed") "remote failure" [] rfl (by decide)⟩

/-- Claim C6: for every session id, the story-scoped tools
(`task_create`, `task_list`, `story_resolve`) called before any
`set_story` for that session fail with the NoActiveStory error and
issue no remote call; after a story id is saved for the session, reads
return exactly that id and `story_resolve` patches exactly that work
item; and saving a story id under one session id leaves the active
story of every other session id unchanged. -/
theorem session_story_scoping
    (env : Env) (sessionId : String) (sessions : Sessions) (oracle : Oracle)
    (henv : _requiredEnv env = Except.ok ())
    (hunset : sessions.lookup (storyKey sessionId) = Option.none) :
    (∀ subject description activeForm,
      taskCreate subject description activeForm env sessionId sessions oracle
        = (Except.error noActiveStoryMsg, [], sessions, oracle)) ∧
    taskList env sessionId sessions oracle
      = (Except.error noActiveStoryMsg, [], sessions, oracle) ∧
    storyResolve env sessionId sessions oracle
      = (Except.error noActiveStoryMsg, [], sessions, oracle) ∧
    (∀ S, S ≠ "" →
      getActiveStoryId (saveStoryId sessions sessionId (Option.some S)) sessionId
        = Except.ok S ∧
      (storyResolve env sessionId (saveStoryId sessions sessionId (Option.some S)) oracle).2.1
        = [⟨"PATCH",
            _orgUrl env ++ "/" ++ jsStr env.ADO_PROJECT ++ "/_apis"
              ++ ("/wit/workitems/" ++ S ++ "?api-version=7.1"),
            Option.some (ReqBody.patch
              [⟨"add", "/fields/System.State", PatchVal.str "Resolved"⟩]),
            "application/json-patch+json"⟩]) ∧
    (∀ sid2 v, sid2 ≠ sessionId →
      getActiveStoryId (saveStoryId sessions sessionId v) sid2
        = getActiveStoryId sessions sid2) := by
  have hga : getActiveStoryId sessions sessionId = Except.error noActiveStoryMsg := by
    unfold getActiveStoryId
    rw [hunset]
  refine ⟨?_, ?_, ?_, ?_, ?_⟩
  · intro subject description activeForm
    unfold taskCreate
    rw [hga]
  · unfold taskList
    rw [hga]
  · unfold storyResolve
    rw [hga]
  · intro S hS
    have hget : getActiveStoryId (saveStoryId sessions sessionId (Option.some S)) sessionId
        = Except.ok S := by
      simp [getActiveStoryId, saveStoryId, List.lookup, hS]
    refine ⟨hget, ?_⟩
    unfold storyResolve
    rw [hget]
    dsimp only
    obtain ⟨res, orc, hreq⟩ := adoRequest_eq env "PATCH"
      ("/wit/workitems/" ++ S ++ "?api-version=7.1")
      (Option.some (ReqBody.patch [⟨"add", "/fields/System.State", PatchVal.str "Resolved"⟩]))
      "application/json-patch+json" oracle henv
    rw [hreq]
    cases res <;> rfl
  · intro sid2 v hsid
    have hk : storyKey sid2 ≠ storyKey sessionId := fun h => hsid (storyKey_inj h)
    unfold getActiveStoryId saveStoryId
    simp [List.lookup, beq_false_of_ne hk]

/-- Witness for C6 at concrete sessions "alice" and "bob". -/
theorem session_story_scoping_witness :
    taskList exEnv "alice" ([] : Sessions) ([] : Oracle)
      = (Except.error noActiveStoryMsg, [], [], []) ∧
    getActiveStoryId (saveStoryId [] "alice" (Option.some "42")) "alice"
      = Except.ok "42" ∧
    getActiveStoryId (saveStoryId [] "alice" (Option.some "42")) "bob"
      = getActiveStoryId [] "bob" := by
  have h := session_story_scoping exEnv "alice" [] [] rfl rfl
  exact ⟨h.2.1, (h.2.2.2.1 "42" (by decide)).1,
    h.2.2.2.2 "bob" (Option.some "42") (by decide)⟩

/-- Claim C7: for every `tools/call` envelope carrying an id, a tool
handler failure (NoActiveStory, remote-tracker errors, …) is returned
as a successful JSON-RPC *result* object carrying error content, never
as a JSON-RPC error object; whereas a malformed envelope yields an
Invalid Request error object and an unknown method a Method-not-found
error object. -/
theorem rpc_error_content_convention
    (env : Env) (sessionId : String) (sessions : Sessions) (oracle : Oracle) :
    (∀ msg i e tr s2 o2, msg.jsonrpc = Option.some "2.0" →
      msg.method? = Option.some "tools/call" → msg.id = Option.some i →
      dispatchTool (msg.params.getD ⟨Option.none, Option.none⟩).name
          ((msg.params.getD ⟨Option.none, Option.none⟩).arguments.getD emptyArgs)
          env sessionId sessions oracle = (Except.error e, tr, s2, o2) →
      handleRpc (RpcIn.msg msg) env sessionId sessions oracle
        = (Option.some (RpcOut.result (Option.some i) (RpcPayload.errorContent e)),
           s2, o2)) ∧
    (∀ msg, (msg.jsonrpc ≠ Option.some "2.0" ∨ msg.method? = Option.none) →
      handleRpc (RpcIn.msg msg) env sessionId sessions oracle
        = (Option.some (RpcOut.error msg.id (-32600) "Invalid Request"),
           sessions, oracle)) ∧
    (handleRpc RpcIn.nullMsg env sessionId sessions oracle
      = (Option.some (RpcOut.error Option.none (-32600) "Invalid Request"),
         sessions, oracle)) ∧
    (∀ msg i meth, msg.jsonrpc = Option.some "2.0" → msg.method? = Option.some meth →
      msg.id = Option.some i →
      meth ∉ (["notifications/initialized", "initialize", "ping", "tools/list",
        "tools/call"] : List String) →
      handleRpc (RpcIn.msg msg) env sessionId sessions oracle
        = (Option.some (RpcOut.error (Option.some i) (-32601)
            ("Method not found: " ++ meth)), sessions, oracle)) := by
  refine ⟨?_, ?_, rfl, ?_⟩
  · intro msg i e tr s2 o2 h1 h2 h3 hd
    unfold handleRpc
    dsimp only
    rw [if_neg (by simp [h1, h2])]
    simp only [h2, h3, Option.getD_some]
    rw [if_pos trivial, hd]
    simp
  · intro msg hmal
    unfold handleRpc
    dsimp only
    rw [if_pos hmal]
  · intro msg i meth h1 h2 h3 hmeth
    simp only [List.mem_cons, List.not_mem_nil, or_false, not_or] at hmeth
    obtain ⟨hm1, hm2, hm3, hm4, hm5⟩ := hmeth
    unfold handleRpc
    dsimp only
    rw [if_neg (by simp [h1, h2])]
    simp only [h2, h3, Option.getD_some]
    rw [if_neg (by simp [hm1]), if_neg (by simp [hm2]), if_neg (by simp [hm3]),
      if_neg (by simp [hm4]), if_neg (by simp [hm5])]

/-- Witness for C7: a `tools/call` of `story_resolve` with no active
story returns a result object carrying the NoActiveStory error
content. -/
theorem rpc_error_content_convention_witness :
    dispatchTool (Option.some "story_resolve") emptyArgs exEnv "default"
        ([] : Sessions) ([] : Oracle)
      = (Except.error noActiveStoryMsg, [], [], []) ∧
    handleRpc (RpcIn.msg ⟨Option.some "2.0", Option.some (RpcId.num 3),
        Option.some "tools/call",
        Option.some ⟨Option.some "story_resolve", Option.none⟩⟩)
        exEnv "default" ([] : Sessions) ([] : Oracle)
      = (Option.some (RpcOut.result (Option.some (RpcId.num 3))
          (RpcPayload.errorContent noActiveStoryMsg)), [], []) := by
  have h := (rpc_error_content_convention exEnv "default" [] []).1
  exact ⟨rfl, h _ (RpcId.num 3) noActiveStoryMsg [] [] [] rfl rfl rfl rfl⟩

/-- Claim C8 counterexample: a batch whose only entry is a malformed
(falsy) envelope carrying no id yields a ONE-element response sequence
(an Invalid Request error object), not the empty sequence the claim
requires for a batch with no id-carrying entries. -/
theorem batch_malformed_entry_counterexample :
    RpcIn.inId RpcIn.nullMsg = Option.none ∧
    (fetchHandler ⟨"POST", "/mcp", exHeaders, Body.batch [RpcIn.nullMsg]⟩ exEnv 0
        ⟨([] : Sessions), ([] : RLStore)⟩ ([] : Oracle)).1
      = ⟨200, [ctJson],
          RespBody.rpcBatch [RpcOut.error Option.none (-32600) "Invalid Request"]⟩ := by
  exact ⟨rfl, rfl⟩

/-- Claim C8 amended: the batch response sequence corresponds
one-to-one, in input order, to the entries for which `handleRpc`
produces a response: the well-formed entries that carry an id and are
not `notifications/initialized` notifications, *plus* every malformed
entry (which contributes an Invalid Request error object even when it
lacks an id).  Well-formed notification or id-less entries are
filtered out rather than nulled-in-place, so a batch of only such
entries yields an empty sequence. -/
theorem batch_response_correspondence
    (body : List RpcIn) (env : Env) (sessionId : String) (sessions : Sessions)
    (oracle : Oracle) :
    ((runBatch body env sessionId sessions oracle).1.filterMap id).map RpcOut.outId
      = (body.filter respondsTo).map RpcIn.inId ∧
    ((∀ m ∈ body, respondsTo m = false) →
      (runBatch body env sessionId sessions oracle).1.filterMap id = []) := by
  refine ⟨runBatch_ids body env sessionId sessions oracle, ?_⟩
  intro hall
  have h := runBatch_ids body env sessionId sessions oracle
  have hfil : body.filter respondsTo = [] := by
    rw [List.filter_eq_nil_iff]
    intro m hm
    simp [hall m hm]
  rw [hfil, List.map_nil] at h
  exact List.map_eq_nil_iff.mp h

/-- Witness for the amended C8: a ping/notification/ping batch answers
the two pings in order, and a notification-only batch answers
nothing. -/
theorem batch_response_correspondence_witness :
    (((runBatch [pingMsg 1, notifMsg, pingMsg 2] exEnv "default"
        ([] : Sessions) ([] : Oracle)).1.filterMap id).map RpcOut.outId
      = ([pingMsg 1, notifMsg, pingMsg 2].filter respondsTo).map RpcIn.inId) ∧
    (runBatch [notifMsg] exEnv "default" ([] : Sessions) ([] : Oracle)).1.filterMap id
      = [] := by
  refine ⟨(batch_response_correspondence [pingMsg 1, notifMsg, pingMsg 2]
    exEnv "default" [] []).1,
    (batch_response_correspondence [notifMsg] exEnv "default" [] []).2 ?_⟩
  intro m hm
  fin_cases hm
  rfl

/-- Claim C9 counterexample: an authorized batched request to /mcp
with session header `mcp-session-id: s1` produces a response body (the
batch array) whose headers carry only `content-type` — no
`Mcp-Session-Id` header. -/
theorem mcp_session_header_batch_counterexample :
    (fetchHandler ⟨"POST", "/mcp", [("x-api-key", "secret"), ("mcp-session-id", "s1")],
        Body.batch [pingMsg 1]⟩ exEnv 0 ⟨([] : Sessions), ([] : RLStore)⟩
        ([] : Oracle)).1
      = ⟨200, [ctJson],
          RespBody.rpcBatch [RpcOut.result (Option.some (RpcId.num 1)) RpcPayload.emptyObj]⟩ := by
  rfl

/-- Claim C9 amended: only *single* (non-batched, non-notification)
responses carry the `Mcp-Session-Id` header, equal to the resolved
session id; batched responses do not.  The session id resolves to the
`mcp-session-id` header when truthy, else the `x-session-id` header
when truthy, else the literal "default". -/
theorem mcp_session_header_single
    (req : Request) (env : Env) (bucket : Nat) (st : WState) (oracle : Oracle)
    (m : RpcIn) (out : RpcOut) (s2 : Sessions) (o2 : Oracle)
    (hpath : req.path = "/mcp") (hmeth : req.method = "POST")
    (hauth : _isAuthorized req.headers env = true)
    (hrate : (checkRateLimit st.rate (clientIP req.headers) bucket).1.allowed = true)
    (hbody : req.body = Body.single m)
    (hresp : handleRpc m env (_sessionId req.headers) st.sessions oracle
      = (Option.some out, s2, o2)) :
    (fetchHandler req env bucket st oracle).1
      = ⟨200, [ctJson, ("Mcp-Session-Id", _sessionId req.headers)],
          RespBody.rpcSingle out⟩ ∧
    (∀ hs : Headers,
      (jsTruthyS (hGet hs "mcp-session-id") = true →
        _sessionId hs = (hGet hs "mcp-session-id").getD "") ∧
      (jsTruthyS (hGet hs "mcp-session-id") = false →
        jsTruthyS (hGet hs "x-session-id") = true →
        _sessionId hs = (hGet hs "x-session-id").getD "") ∧
      (jsTruthyS (hGet hs "mcp-session-id") = false →
        jsTruthyS (hGet hs "x-session-id") = false →
        _sessionId hs = "default")) := by
  constructor
  · unfold fetchHandler
    have h1 : ¬ (req.method = "GET" ∧ req.path = "/health") := by
      rintro ⟨hg, -⟩
      rw [hmeth] at hg
      exact absurd hg (by decide)
    rw [if_neg h1, if_neg (by rw [hpath]; simp),
      if_neg (by rw [hauth]; simp)]
    dsimp only
    rw [if_neg (by rw [hrate]; simp), if_neg (by rw [hmeth]; simp), hbody]
    dsimp only
    rw [hresp]
  · intro hs
    refine ⟨?_, ?_, ?_⟩
    · intro ha
      simp [_sessionId, ha]
    · intro ha hb
      simp [_sessionId, ha, hb]
    · intro ha hb
      simp [_sessionId, ha, hb]

/-- Witness for the amended C9 at a concrete single ping request with
an `x-session-id` header. -/
theorem mcp_session_header_single_witness :
    _sessionId [("x-api-key", "secret"), ("x-session-id", "sess7")] = "sess7" ∧
    (fetchHandler ⟨"POST", "/mcp", [("x-api-key", "secret"), ("x-session-id", "sess7")],
        Body.single (pingMsg 5)⟩ exEnv 0 ⟨([] : Sessions), ([] : RLStore)⟩
        ([] : Oracle)).1
      = ⟨200, [ctJson, ("Mcp-Session-Id",
            _sessionId [("x-api-key", "secret"), ("x-session-id", "sess7")])],
          RespBody.rpcSingle (RpcOut.result (Option.some (RpcId.num 5)) RpcPayload.emptyObj)⟩ :=
  ⟨rfl, (mcp_session_header_single
    ⟨"POST", "/mcp", [("x-api-key", "secret"), ("x-session-id", "sess7")],
      Body.single (pingMsg 5)⟩ exEnv 0 ⟨([] : Sessions), ([] : RLStore)⟩ ([] : Oracle)
    (pingMsg 5) (RpcOut.result (Option.some (RpcId.num 5)) RpcPayload.emptyObj) [] []
    rfl rfl rfl rfl rfl rfl).1⟩

end AdoWorker
